import Mathlib

/-!
Shallow embedding of the core logic of `local_info_dashboard.py`
(repository `local_insights_dashboard`), covering:

* `get_innovative_weather_suggestions` — the weather advisory rule engine;
* `get_day_night_and_local_time` — the astronomical / local-time calculator;
* `get_wind_direction` — wind-degree to cardinal-direction mapping;
* `get_news` together with its inline country resolution and
  `COUNTRY_NAME_TO_ISO` — the news client.

Python floats are modelled as rationals (only order comparisons with decimal
constants occur, so this is exact), Unix timestamps as integers (whole
seconds), Python dicts as insertion-ordered association lists, and code that
can raise an exception as `Except`-valued functions where `.error ()` marks a
raised exception (for the rule engine: the `KeyError` from indexing a missing
dict key).
-/

namespace LocalInsights

/-! ### Python string helpers -/

/-- Python substring test helper: is `needle` a prefix of `hay` (char lists)? -/
def charPrefAux : List Char → List Char → Bool
  | [], _ => true
  | _ :: _, [] => false
  | n :: ns, h :: hs => n == h && charPrefAux ns hs

/-- Python substring test helper over char lists. -/
def hasSubstrAux (needle : List Char) : List Char → Bool
  | [] => charPrefAux needle []
  | c :: rest => charPrefAux needle (c :: rest) || hasSubstrAux needle rest

/-- Python `needle in hay` for strings (substring containment). -/
def pyIn (needle hay : String) : Bool :=
  hasSubstrAux needle.data hay.data

/-- Python `str.lower()` (ASCII behaviour), as a structurally recursive map
over the character list. -/
def pyLower (s : String) : String :=
  ⟨s.data.map Char.toLower⟩

/-- Python `str.upper()` (ASCII behaviour). -/
def pyUpper (s : String) : String :=
  ⟨s.data.map Char.toUpper⟩

/-- Python `str.isalpha()`: non-empty and every character alphabetic
(the inputs of interest are ASCII, matching Lean's `Char.isAlpha`). -/
def pyIsAlpha (s : String) : Bool :=
  !s.data.isEmpty && s.data.all Char.isAlpha

/-- Python `str.title()` helper: the boolean records whether the previous
character was alphabetic (cased). -/
def pyTitleAux : Bool → List Char → List Char
  | _, [] => []
  | prevAlpha, c :: cs =>
    if c.isAlpha then
      (if prevAlpha then c.toLower else c.toUpper) :: pyTitleAux true cs
    else
      c :: pyTitleAux false cs

/-- Python `str.title()` (ASCII behaviour): first letter of each word
uppercased, the rest lowercased. -/
def pyTitle (s : String) : String :=
  ⟨pyTitleAux false s.data⟩

/-! ### The suggestions dict of `get_innovative_weather_suggestions`

The source initialises a Python dict with eleven emoji-labelled keys
(lines 173-185).  The final "General Pet Care Tip" block (lines 261-265)
uses a *different* key — the paw-print emoji `🐾 Pet Pal` instead of the
initialised dog emoji `🐶 Pet Pal` — with `+=`, which in Python reads the
missing key first and therefore raises `KeyError`.  We model the keys as an
inductive type with both spellings as distinct constructors. -/

/-- Keys of the suggestions dict.  Each constructor corresponds to one
string key of the source: `dressCode` = "👕 Dress Code", `activityIdea` =
"🤸 Activity Idea", `healthTip` = "❤️ Health Tip", `commuteReady` =
"🚗 Commute Ready", `energySavvy` = "💡 Energy Savvy", `greenThumb` =
"🌿 Green Thumb", `petPalDog` = "🐶 Pet Pal" (dog emoji, initialised),
`stayHydrated` = "💧 Stay Hydrated", `sunSafety` = "😎 Sun Safety",
`windAdvisory` = "🌬️ Wind Advisory", `moodBoost` = "🌈 Mood Boost",
`petPalPaw` = "🐾 Pet Pal" (paw emoji, used only by the final pet-care
block and never initialised). -/
inductive Slot where
  | dressCode
  | activityIdea
  | healthTip
  | commuteReady
  | energySavvy
  | greenThumb
  | petPalDog
  | stayHydrated
  | sunSafety
  | windAdvisory
  | moodBoost
  | petPalPaw
deriving DecidableEq, Repr

/-- An insertion-ordered Python dict from slot keys to strings. -/
abbrev Dict := List (Slot × String)

/-- Python `d[k] = v`: overwrite in place if the key exists (position kept),
otherwise append at the end. -/
def dset (d : Dict) (k : Slot) (v : String) : Dict :=
  if d.any (fun p => p.1 == k) then
    d.map (fun p => if p.1 == k then (k, v) else p)
  else
    d ++ [(k, v)]

/-- Python `d.get(k)` restricted to present keys: first binding of `k`. -/
def dgetOpt (d : Dict) (k : Slot) : Option String :=
  (d.find? (fun p => p.1 == k)).map (fun p => p.2)

/-- Python `d[k] += v` on a string-valued dict: reads `d[k]` first, so a
missing key raises `KeyError` (modelled as `.error ()`). -/
def daddErr (d : Dict) (k : Slot) (v : String) : Except Unit Dict :=
  match dgetOpt d k with
  | some old => Except.ok (dset d k (old ++ v))
  | none => Except.error ()

/-! ### The advisory rule engine (`get_innovative_weather_suggestions`) -/

/-- Inputs of `get_innovative_weather_suggestions` (source line 172).
`pressure`/`visibility` are `Option` because the source guards them with
`isinstance(x, (int, float))` — the dashboard passes the string "N/A" when
the provider omits visibility. -/
structure WeatherInput where
  temp : ℚ
  description : String
  wind_speed : ℚ
  humidity : ℚ
  is_day : Bool
  pressure : Option ℚ
  visibility : Option ℚ

/-- The initial suggestions dict (source lines 173-185), in insertion order. -/
def initSuggestions : Dict :=
  [(Slot.dressCode, ""), (Slot.activityIdea, ""), (Slot.healthTip, ""),
   (Slot.commuteReady, ""), (Slot.energySavvy, ""), (Slot.greenThumb, ""),
   (Slot.petPalDog, ""), (Slot.stayHydrated, ""), (Slot.sunSafety, ""),
   (Slot.windAdvisory, ""), (Slot.moodBoost, "")]

/-- Temperature-based advice (source lines 187-206). -/
def tempStep (temp : ℚ) (s : Dict) : Dict :=
  if temp < 5 then
    dset (dset (dset s Slot.dressCode "Heavy coat, hat, gloves. Layers are key!")
      Slot.activityIdea "Indoor games, cozy reading, or snowman building (if snow!).")
      Slot.healthTip "Beware of ice! Limit exposed skin. Hypothermia risk."
  else if 5 ≤ temp ∧ temp < 15 then
    dset (dset s Slot.dressCode "Light jacket or sweater. Smart to layer.")
      Slot.activityIdea "Museum visits, coffee shop hopping, or a brisk walk."
  else if 15 ≤ temp ∧ temp < 25 then
    dset (dset (dset s Slot.dressCode "Comfortable light clothing. Long-sleeves for evenings.")
      Slot.activityIdea "Outdoor sports, picnic, or exploring local sights.")
      Slot.healthTip "Sunscreen is vital if sunny. Drink water!"
  else if 25 ≤ temp ∧ temp < 30 then
    dset (dset (dset s Slot.dressCode "Shorts and t-shirt. Breathable fabrics.")
      Slot.activityIdea "Beach day, swimming, or outdoor dining (in shade).")
      Slot.healthTip "Hydrate constantly! Watch for heat exhaustion."
  else
    dset (dset (dset s Slot.dressCode "Lightest clothing. Avoid dark colors.")
      Slot.activityIdea "Indoor pools, air-conditioned places, or early/late outdoor walks.")
      Slot.healthTip "Extreme heat! Stay indoors, drink lots of water, check on others."

/-- Condition-based refinements (source lines 209-234); `weather_desc` is the
already-lowercased description. -/
def condStep (weather_desc : String) (is_day : Bool) (s : Dict) : Except Unit Dict :=
  if pyIn "rain" weather_desc || pyIn "drizzle" weather_desc then do
    let s ← daddErr s Slot.dressCode " Umbrella/waterproof jacket needed!"
    let s := dset s Slot.activityIdea "Movies, board games, or indoor shopping."
    let s := dset s Slot.commuteReady "Slippery roads. Drive slow, increase distance."
    let s := dset s Slot.greenThumb "Plants love it! Collect rainwater."
    let s := dset s Slot.petPalDog "Wipe paws after walks. Keep pets dry."
    pure (dset s Slot.moodBoost "Cozy up with a warm drink and a good book!")
  else if pyIn "snow" weather_desc then do
    let s ← daddErr s Slot.dressCode " Snow boots, waterproof gear!"
    let s := dset s Slot.activityIdea "Snowball fight, building a snowman, or relaxing indoors."
    let s := dset s Slot.commuteReady "Icy/snowy roads. Drive with care or use public transport."
    let s := dset s Slot.petPalDog "Limit pet outdoor time, protect paws."
    pure (dset s Slot.moodBoost "Enjoy the winter wonderland from inside!")
  else if pyIn "fog" weather_desc || pyIn "mist" weather_desc || pyIn "haze" weather_desc then do
    let s := dset s Slot.commuteReady "Low visibility. Use headlights, drive slowly."
    let s := dset s Slot.healthTip "Be extra cautious when walking/driving. Use fog lights."
    pure (dset s Slot.moodBoost "A mysterious, quiet day. Perfect for reflection.")
  else if pyIn "clear" weather_desc && is_day then do
    let s ← daddErr s Slot.healthTip " High UV! Reapply sunscreen often."
    pure (dset s Slot.sunSafety "Wear sunglasses and a hat. Seek shade between 10 AM - 4 PM.")
  else if pyIn "clear" weather_desc && !is_day then
    pure (dset s Slot.activityIdea "Fantastic for stargazing or night photography! ✨")
  else if pyIn "cloud" weather_desc then do
    let s := dset s Slot.energySavvy "Good day for natural light, reduce indoor lighting."
    pure (dset s Slot.moodBoost "A mellow day. Perfect for indoor hobbies or gentle walks.")
  else
    pure s

/-- Strong-wind rule (source lines 236-240). -/
def windStep (wind_speed : ℚ) (s : Dict) : Except Unit Dict :=
  if wind_speed > 10 then do
    let s ← daddErr s Slot.dressCode " Windproof layers!"
    let s := dset s Slot.activityIdea "Avoid windy sports (e.g., kite flying, exposed cycling)."
    let s := dset s Slot.commuteReady "Strong gusts can affect tall vehicles. Watch for debris."
    pure (dset s Slot.windAdvisory "Secure loose outdoor items. Stay cautious near tall structures.")
  else
    pure s

/-- Pressure-based insights (source lines 242-248); fires only when pressure
is numeric. -/
def pressureStep (pressure : Option ℚ) (s : Dict) : Except Unit Dict :=
  match pressure with
  | some p =>
    if p < 1000 then do
      let s ← daddErr s Slot.healthTip " Low pressure can sometimes cause headaches for sensitive people."
      daddErr s Slot.activityIdea " You might feel sluggish. Relaxing activities are best."
    else if p > 1020 then
      daddErr s Slot.energySavvy " Stable weather. Great for opening windows to air out rooms."
    else
      pure s
  | none => pure s

/-- Visibility-based insights (source lines 251-253); fires only when
visibility is numeric and below 5000 m. -/
def visibilityStep (visibility : Option ℚ) (s : Dict) : Except Unit Dict :=
  match visibility with
  | some v =>
    if v < 5000 then do
      let s := dset s Slot.commuteReady "Reduced visibility. Drive slower and increase following distance."
      daddErr s Slot.healthTip " Be extra alert when outdoors."
    else
      pure s
  | none => pure s

/-- Hydration tip (source lines 256-259): always sets exactly one of the two
fixed strings. -/
def hydrationStep (temp humidity : ℚ) (s : Dict) : Dict :=
  if temp ≥ 25 ∨ humidity ≥ 70 then
    dset s Slot.stayHydrated "Drink plenty of water throughout the day!"
  else
    dset s Slot.stayHydrated "Keep a water bottle handy and sip regularly."

/-- General pet-care tip (source lines 262-265).  Uses `+=` on the key
"🐾 Pet Pal" (paw emoji), which was never initialised — the initialised key
is "🐶 Pet Pal" (dog emoji) — so in Python this raises `KeyError` whenever
`temp < 10` or `temp > 28`. -/
def petStep (temp : ℚ) (s : Dict) : Except Unit Dict :=
  if temp < 10 then
    daddErr s Slot.petPalPaw " Consider warm bedding for outdoor pets."
  else if temp > 28 then
    daddErr s Slot.petPalPaw " Ensure pets have plenty of fresh water and shade."
  else
    pure s

/-- The dict state after all rule steps but before the final pet-care block
(source lines 173-259): composition of the embedded steps, used to inspect
what the engine has computed at the point where it may raise. -/
def suggestionsBeforePet (w : WeatherInput) : Except Unit Dict := do
  let s := tempStep w.temp initSuggestions
  let weather_desc := pyLower w.description
  let s ← condStep weather_desc w.is_day s
  let s ← windStep w.wind_speed s
  let s ← pressureStep w.pressure s
  let s ← visibilityStep w.visibility s
  pure (hydrationStep w.temp w.humidity s)

/-- `get_innovative_weather_suggestions` (source lines 172-268): runs every
rule step in order and finally drops empty slots.  `.error ()` models the
Python `KeyError` raised by the pet-care block. -/
def get_innovative_weather_suggestions (w : WeatherInput) : Except Unit Dict := do
  let s ← suggestionsBeforePet w
  let s ← petStep w.temp s
  pure (s.filter (fun p => p.2 != ""))

/-- Projection helper: the value of slot `k` in an engine result (errors
propagate). -/
def slotOf (r : Except Unit Dict) (k : Slot) : Except Unit (Option String) :=
  r.map (fun d => dgetOpt d k)

/-! ### `get_day_night_and_local_time` (source lines 130-147)

Instants are Unix timestamps in whole seconds (UTC); the timezone offset is a
flat seconds value.  `datetime.fromtimestamp(ts, tz)` yields the local
wall-clock time of the instant, and comparison of the timezone-aware
datetimes compares the underlying instants.  `strftime('%H:%M %p')` prints
the 24-hour zero-padded hour, the minute, and the locale AM/PM marker
(AM exactly when the 24-hour value is below 12). -/

/-- Zero-padded two-digit rendering of a number below 100 (strftime `%H`/`%M`). -/
def twoDigit (n : ℕ) : String :=
  (if n < 10 then "0" else "") ++ toString n

/-- Python `datetime.strftime('%H:%M %p')` applied to the local wall-clock
time of an instant given as local epoch seconds. -/
def strfHMp (localSeconds : ℤ) : String :=
  let secOfDay := (localSeconds % 86400).toNat
  let h := secOfDay / 3600
  let m := secOfDay % 3600 / 60
  twoDigit h ++ ":" ++ twoDigit m ++ " " ++ (if h < 12 then "AM" else "PM")

/-- `get_day_night_and_local_time` (source lines 130-147): returns the tuple
(day/night status, local time string, day length string, sunrise string,
sunset string). -/
def get_day_night_and_local_time (current_timestamp sunrise_timestamp sunset_timestamp
    timezone_offset_seconds : ℤ) : String × String × String × String × String :=
  let current_local := current_timestamp + timezone_offset_seconds
  let sunrise_local := sunrise_timestamp + timezone_offset_seconds
  let sunset_local := sunset_timestamp + timezone_offset_seconds
  let day_night_status :=
    if sunrise_local ≤ current_local ∧ current_local ≤ sunset_local then "Daytime ☀️"
    else "Nighttime 🌙"
  let day_length_seconds := sunset_local - sunrise_local
  let day_length_hours := Int.fdiv day_length_seconds 3600
  let day_length_minutes := Int.fdiv (Int.fmod day_length_seconds 3600) 60
  let day_length_str := toString day_length_hours ++ "h " ++ toString day_length_minutes ++ "m"
  (day_night_status, strfHMp current_local, day_length_str,
   strfHMp sunrise_local, strfHMp sunset_local)

/-- Modelled from the spec: "Formatting: 12-hour clock with AM/PM suffix for
time-of-day strings" — the genuine 12-hour rendering (strftime `%I:%M %p`)
of a local instant, for comparison with the code's formatter. -/
def spec_time_str_12h (localSeconds : ℤ) : String :=
  let secOfDay := (localSeconds % 86400).toNat
  let h := secOfDay / 3600
  let m := secOfDay % 3600 / 60
  let h12 := if h % 12 = 0 then 12 else h % 12
  twoDigit h12 ++ ":" ++ twoDigit m ++ " " ++ (if h < 12 then "AM" else "PM")

/-! ### `get_wind_direction` (source lines 149-153) -/

/-- The sixteen cardinal directions (source lines 150-151). -/
def directions : List String :=
  ["N", "NNE", "NE", "ENE", "E", "ESE", "SE", "SSE",
   "S", "SSW", "SW", "WSW", "W", "WNW", "NW", "NNW"]

/-- Python `round()` on an exact rational: nearest integer, ties to even
(banker's rounding).  For `deg / 22.5` with rational `deg` a tie never
occurs, so this agrees with the float computation of the source. -/
def roundHalfEven (x : ℚ) : ℤ :=
  let f := x.floor
  let frac := x - (f : ℚ)
  if frac < 1 / 2 then f
  else if 1 / 2 < frac then f + 1
  else if f % 2 = 0 then f else f + 1

/-- Python list indexing `l[i]`: negative indices count from the end, and an
index out of range raises `IndexError` (modelled as `.error ()`). -/
def pyListIndex (l : List String) (i : ℤ) : Except Unit String :=
  let j := if i < 0 then i + (l.length : ℤ) else i
  if 0 ≤ j then
    match l.get? j.toNat with
    | some x => Except.ok x
    | none => Except.error ()
  else
    Except.error ()

/-- `get_wind_direction` (source lines 149-153): index `round(deg / 22.5)`
reduced modulo 16 into the fixed direction table. -/
def get_wind_direction (deg : ℚ) : Except Unit String :=
  let idx := roundHalfEven (deg / ((360 : ℚ) / (directions.length : ℚ)))
  pyListIndex directions (idx % (directions.length : ℤ))

/-! ### Country resolution and the news client (`get_news`, lines 272-324) -/

/-- `COUNTRY_NAME_TO_ISO` (source lines 36-50): full country name to ISO
3166-1 alpha-2 code, in source order. -/
def COUNTRY_NAME_TO_ISO : List (String × String) :=
  [("United States", "us"), ("Canada", "ca"), ("United Kingdom", "gb"),
   ("Australia", "au"), ("Germany", "de"), ("France", "fr"),
   ("South Africa", "za"), ("India", "in"), ("Brazil", "br"),
   ("China", "cn"), ("Japan", "jp"), ("Mexico", "mx"), ("Nigeria", "ng"),
   ("Egypt", "eg"), ("Ireland", "ie"), ("Italy", "it"), ("Netherlands", "nl"),
   ("New Zealand", "nz"), ("Norway", "no"), ("Philippines", "ph"),
   ("Poland", "pl"), ("Portugal", "pt"), ("Romania", "ro"), ("Russia", "ru"),
   ("Saudi Arabia", "sa"), ("Serbia", "rs"), ("Singapore", "sg"),
   ("Slovakia", "sk"), ("Slovenia", "si"), ("South Korea", "kr"),
   ("Sweden", "se"), ("Switzerland", "ch"), ("Taiwan", "tw"),
   ("Thailand", "th"), ("Turkey", "tr"), ("Ukraine", "ua"),
   ("United Arab Emirates", "ae"), ("Venezuela", "ve")]

/-- Python `COUNTRY_NAME_TO_ISO.get(name, None)` (keys are unique). -/
def lookupCountry (name : String) : Option String :=
  (COUNTRY_NAME_TO_ISO.find? (fun p => p.1 == name)).map (fun p => p.2)

/-- The inline country resolution of `get_news` (source lines 289-301):
returns the resolved ISO code together with a flag recording whether the
fallback warning was emitted. -/
def resolveCountry (country_name : String) : String × Bool :=
  let iso_country_code : Option String :=
    if country_name.length == 2 && pyIsAlpha country_name then
      some (pyLower country_name)
    else
      lookupCountry (pyTitle country_name)
  match iso_country_code with
  | some code => (code, false)
  | none => ("us", true)

/-- A news article as consumed by the dashboard (`articles` entries of the
provider response); `get_news` returns them unmodified. -/
structure NewsArticle where
  title : String
  url : String
  author : Option String
  description : Option String
deriving DecidableEq, Repr

/-- Observability signals emitted by `get_news` via `st.error`/`st.warning`,
identified by call site. -/
inductive Signal where
  | errorApiKeyMissing
  | warnCountryCode
  | errorRequest
  | errorJsonDecode
deriving DecidableEq, Repr

/-- Outcome of the provider fetch inside `get_news`: the request raised a
`RequestException`, the body raised a `JSONDecodeError`, or it parsed to a
payload whose `articles` field is absent/None (`none`) or a list. -/
inductive NewsResponse where
  | raiseRequest
  | raiseJson
  | parsed (articles : Option (List NewsArticle))

/-- The request parameters built by `get_news` (source lines 303-310):
`pageSize` is the integer 5, rendered here as a string value. -/
def newsRequestParams (api_key iso_country_code query : String) : List (String × String) :=
  let params := [("apiKey", api_key), ("pageSize", "5"), ("country", iso_country_code)]
  if query ≠ "" then params ++ [("q", query)] else params

/-- `get_news` (source lines 272-324), with the provider interaction made
explicit as a `NewsResponse` argument.  Returns the article list together
with the emitted signals; every failure path degrades to the empty list. -/
def get_news (query country_name api_key : String) (response : NewsResponse) :
    List NewsArticle × List Signal :=
  if api_key == "" || api_key == "YOUR_NEWS_API_KEY" then
    ([], [Signal.errorApiKeyMissing])
  else
    let iso_country_code := (resolveCountry country_name).1
    let warnings := if (resolveCountry country_name).2 then [Signal.warnCountryCode] else []
    let _params := newsRequestParams api_key iso_country_code query
    match response with
    | NewsResponse.raiseRequest => ([], warnings ++ [Signal.errorRequest])
    | NewsResponse.raiseJson => ([], warnings ++ [Signal.errorJsonDecode])
    | NewsResponse.parsed articles =>
      match articles with
      | some (a :: rest) => (a :: rest, warnings)
      | _ => ([], warnings)

/-- A concrete article value used in concrete evaluations. -/
def sampleArticle : NewsArticle :=
  ⟨"headline", "https://example.com/a", none, none⟩

end LocalInsights

deriving instance DecidableEq for Except

namespace LocalInsights

/-! ### Helper lemmas -/

/-- Reduction of an `Except` bind on a success value. -/
lemma exBindOk {α β : Type} (a : α) (f : α → Except Unit β) :
    (Except.ok a >>= f : Except Unit β) = f a := rfl

/-- In the cool band (5 ≤ t < 15) the temperature step behaves as at 12 °C. -/
lemma tempStep_cool_band (t : ℚ) (s : Dict) (h1 : 5 ≤ t) (h2 : t < 15) :
    tempStep t s = tempStep 12 s := by
  unfold tempStep
  rw [if_neg (show ¬(t < 5) from by linarith),
    if_pos (show 5 ≤ t ∧ t < 15 from ⟨h1, h2⟩),
    if_neg (show ¬((12 : ℚ) < 5) from by norm_num),
    if_pos (show (5 : ℚ) ≤ 12 ∧ (12 : ℚ) < 15 from by norm_num)]

/-- In the mild band (15 ≤ t < 25) the temperature step behaves as at 20 °C. -/
lemma tempStep_mild_band (t : ℚ) (s : Dict) (h1 : 15 ≤ t) (h2 : t < 25) :
    tempStep t s = tempStep 20 s := by
  unfold tempStep
  rw [if_neg (show ¬(t < 5) from by linarith),
    if_neg (show ¬(5 ≤ t ∧ t < 15) from fun hx => by linarith [hx.2]),
    if_pos (show 15 ≤ t ∧ t < 25 from ⟨h1, h2⟩),
    if_neg (show ¬((20 : ℚ) < 5) from by norm_num),
    if_neg (show ¬((5 : ℚ) ≤ 20 ∧ (20 : ℚ) < 15) from by norm_num),
    if_pos (show (15 : ℚ) ≤ 20 ∧ (20 : ℚ) < 25 from by norm_num)]

/-- In the warm band (25 ≤ t < 30) the temperature step behaves as at 27 °C. -/
lemma tempStep_warm_band (t : ℚ) (s : Dict) (h1 : 25 ≤ t) (h2 : t < 30) :
    tempStep t s = tempStep 27 s := by
  unfold tempStep
  rw [if_neg (show ¬(t < 5) from by linarith),
    if_neg (show ¬(5 ≤ t ∧ t < 15) from fun hx => by linarith [hx.2]),
    if_neg (show ¬(15 ≤ t ∧ t < 25) from fun hx => by linarith [hx.2]),
    if_pos (show 25 ≤ t ∧ t < 30 from ⟨h1, h2⟩),
    if_neg (show ¬((27 : ℚ) < 5) from by norm_num),
    if_neg (show ¬((5 : ℚ) ≤ 27 ∧ (27 : ℚ) < 15) from by norm_num),
    if_neg (show ¬((15 : ℚ) ≤ 27 ∧ (27 : ℚ) < 25) from by norm_num),
    if_pos (show (25 : ℚ) ≤ 27 ∧ (27 : ℚ) < 30 from by norm_num)]

/-- An empty description matches none of the condition rules. -/
lemma condStep_empty_desc (b : Bool) (s : Dict) : condStep "" b s = Except.ok s := by
  have hc : pyIn "clear" "" = false := rfl
  unfold condStep
  rw [if_neg (show ¬((pyIn "rain" "" || pyIn "drizzle" "") = true) from by decide),
    if_neg (show ¬(pyIn "snow" "" = true) from by decide),
    if_neg (show ¬((pyIn "fog" "" || pyIn "mist" "" || pyIn "haze" "") = true) from by decide),
    if_neg (show ¬((pyIn "clear" "" && b) = true) from by simp [hc]),
    if_neg (show ¬((pyIn "clear" "" && !b) = true) from by simp [hc]),
    if_neg (show ¬(pyIn "cloud" "" = true) from by decide)]
  rfl

/-- Calm wind (≤ 10 m/s) leaves the dict unchanged. -/
lemma windStep_calm (w : ℚ) (s : Dict) (hw : ¬(w > 10)) : windStep w s = Except.ok s := by
  unfold windStep
  rw [if_neg hw]
  rfl

/-- Unavailable pressure skips the pressure rules. -/
lemma pressureStep_none (s : Dict) : pressureStep none s = Except.ok s := rfl

/-- Unavailable visibility skips the visibility rule. -/
lemma visibilityStep_none (s : Dict) : visibilityStep none s = Except.ok s := rfl

/-- In the range 10 ≤ t ≤ 28 the pet-care block does not touch the dict
(and in particular does not raise). -/
lemma petStep_mid (t : ℚ) (s : Dict) (h1 : 10 ≤ t) (h2 : t ≤ 28) :
    petStep t s = Except.ok s := by
  unfold petStep
  rw [if_neg (show ¬(t < 10) from by linarith), if_neg (show ¬(t > 28) from by linarith)]
  rfl

/-- Drink-plenty case of the hydration rule. -/
lemma hydrationStep_drink (t h : ℚ) (s : Dict) (hc : t ≥ 25 ∨ h ≥ 70) :
    hydrationStep t h s = dset s Slot.stayHydrated "Drink plenty of water throughout the day!" := by
  unfold hydrationStep
  rw [if_pos hc]

/-- Sip-regularly case of the hydration rule. -/
lemma hydrationStep_sip (t h : ℚ) (s : Dict) (hc : ¬(t ≥ 25 ∨ h ≥ 70)) :
    hydrationStep t h s = dset s Slot.stayHydrated "Keep a water bottle handy and sip regularly." := by
  unfold hydrationStep
  rw [if_neg hc]

/-- For a plain input (empty description, no wind, no pressure/visibility)
with in-range temperature, the whole pipeline up to the pet-care block
reduces to hydration applied to the temperature step. -/
lemma suggestionsBeforePet_plain (t h : ℚ) :
    suggestionsBeforePet ⟨t, "", 0, h, true, none, none⟩ =
      Except.ok (hydrationStep t h (tempStep t initSuggestions)) := by
  unfold suggestionsBeforePet
  dsimp only
  rw [show pyLower "" = "" from rfl, condStep_empty_desc, exBindOk,
    windStep_calm 0 _ (by norm_num), exBindOk, pressureStep_none, exBindOk,
    visibilityStep_none, exBindOk]
  rfl

/-- For a plain input with in-range temperature the engine returns the
filtered dict (no `KeyError`). -/
lemma engine_plain_mid (t h : ℚ) (h1 : 10 ≤ t) (h2 : t ≤ 28) :
    get_innovative_weather_suggestions ⟨t, "", 0, h, true, none, none⟩ =
      Except.ok ((hydrationStep t h (tempStep t initSuggestions)).filter
        (fun p => p.2 != "")) := by
  unfold get_innovative_weather_suggestions
  dsimp only
  rw [suggestionsBeforePet_plain, exBindOk, petStep_mid t _ h1 h2, exBindOk]
  rfl

end LocalInsights

namespace LocalInsights

/-! ### Claim theorems -/

/-- C1 (code bug): the claim states the rule engine is total and never
raises, in particular for temp < 10 or temp > 28.  The code violates this:
the final pet-care block indexes the never-initialised key "🐾 Pet Pal"
with `+=`, raising `KeyError` exactly when temp < 10 or temp > 28; the
engine only returns for intermediate temperatures. -/
theorem C1_engine_not_total_keyerror :
    get_innovative_weather_suggestions ⟨3, "snow", 5, 80, false, some 1013, some 8000⟩ =
      Except.error () ∧
    get_innovative_weather_suggestions ⟨35, "clear", 2, 30, true, some 1013, some 10000⟩ =
      Except.error () ∧
    (get_innovative_weather_suggestions ⟨20, "clear", 3, 40, true, some 1013, some 10000⟩).isOk =
      true := by
  decide

/-- C2 (code bug): on the end-to-end scenario (32 °C, "light rain",
wind 15, humidity 80 %, daytime, pressure 995, visibility 3000) the dict
state just before the pet-care block matches every slot value the claim
describes (Dress Code mentions heat, rain and wind protection; Commute
Ready holds the visibility-rule text; Hydration is "drink plenty"; Wind
Advisory is populated) — but the engine then raises `KeyError` (temp 32
> 28, missing key "🐾 Pet Pal") instead of returning that mapping. -/
theorem C2_scenario_keyerror_with_expected_slots :
    get_innovative_weather_suggestions ⟨32, "light rain", 15, 80, true, some 995, some 3000⟩ =
      Except.error () ∧
    slotOf (suggestionsBeforePet ⟨32, "light rain", 15, 80, true, some 995, some 3000⟩)
        Slot.dressCode =
      Except.ok (some "Lightest clothing. Avoid dark colors. Umbrella/waterproof jacket needed! Windproof layers!") ∧
    slotOf (suggestionsBeforePet ⟨32, "light rain", 15, 80, true, some 995, some 3000⟩)
        Slot.commuteReady =
      Except.ok (some "Reduced visibility. Drive slower and increase following distance.") ∧
    slotOf (suggestionsBeforePet ⟨32, "light rain", 15, 80, true, some 995, some 3000⟩)
        Slot.stayHydrated =
      Except.ok (some "Drink plenty of water throughout the day!") ∧
    slotOf (suggestionsBeforePet ⟨32, "light rain", 15, 80, true, some 995, some 3000⟩)
        Slot.windAdvisory =
      Except.ok (some "Secure loose outdoor items. Stay cautious near tall structures.") := by
  decide

/-- C3 (counterexample): a provider response that parses successfully with
eight articles makes `get_news` return all eight — the returned list does
not have length ≤ 5, contradicting the claim that the client caps results
at 5 for every provider response. -/
theorem C3_counterexample_eight_articles :
    (get_news "" "South Africa" "k"
        (NewsResponse.parsed (some (List.replicate 8 sampleArticle)))).1.length = 8 ∧
    ¬((get_news "" "South Africa" "k"
        (NewsResponse.parsed (some (List.replicate 8 sampleArticle)))).1.length ≤ 5) := by
  decide

/-- C3 (amended): `get_news` requests at most five articles by sending
`pageSize = 5` to the provider, but performs no client-side truncation — it
returns the provider's article list unchanged, so the ≤ 5 bound holds only
insofar as the provider honours `pageSize`. -/
theorem C3_amended_no_client_side_cap (query country_name api_key : String)
    (articles : List NewsArticle) (h1 : api_key ≠ "") (h2 : api_key ≠ "YOUR_NEWS_API_KEY") :
    (get_news query country_name api_key (NewsResponse.parsed (some articles))).1 = articles ∧
    ("pageSize", "5") ∈ newsRequestParams api_key (resolveCountry country_name).1 query := by
  have hb : (api_key == "" || api_key == "YOUR_NEWS_API_KEY") = false := by
    simp [h1, h2]
  constructor
  · unfold get_news
    rw [if_neg (by simp [hb])]
    cases articles with
    | nil => rfl
    | cons a rest => rfl
  · unfold newsRequestParams
    split <;> simp

/-- C3 (witness): the amended theorem applied at a concrete input. -/
theorem C3_amended_witness :
    (get_news "q" "India" "k" (NewsResponse.parsed (some [sampleArticle]))).1 = [sampleArticle] ∧
    ("pageSize", "5") ∈ newsRequestParams "k" (resolveCountry "India").1 "q" :=
  C3_amended_no_client_side_cap "q" "India" "k" [sampleArticle] (by decide) (by decide)

/-- C4 (counterexample): at the instant 18:30 UTC with offset 0 the
calculator's local-time string is "18:30 PM" (strftime `%H:%M %p`, a
24-hour hour field), which differs from the 12-hour rendering "06:30 PM"
required by the claim. -/
theorem C4_counterexample_24_hour_string :
    (get_day_night_and_local_time 66600 21600 66600 0).2.1 = "18:30 PM" ∧
    spec_time_str_12h (66600 + 0) = "06:30 PM" ∧
    (get_day_night_and_local_time 66600 21600 66600 0).2.1 ≠ spec_time_str_12h (66600 + 0) := by
  decide

/-- Shape of every string the code's `%H:%M %p` formatter produces: a
zero-padded 24-hour hour, a minute, and an AM/PM suffix derived from
whether the 24-hour value is below 12. -/
lemma strfHMp_shape (t : ℤ) :
    ∃ h m : ℕ, h < 24 ∧ m < 60 ∧
      strfHMp t = twoDigit h ++ ":" ++ twoDigit m ++ " " ++ (if h < 12 then "AM" else "PM") := by
  refine ⟨(t % 86400).toNat / 3600, (t % 86400).toNat % 3600 / 60, ?_, ?_, rfl⟩
  · have h1 : t % 86400 < 86400 := Int.emod_lt_of_pos t (by norm_num)
    have h0 : 0 ≤ t % 86400 := Int.emod_nonneg t (by norm_num)
    omega
  · omega

/-- C4 (amended): every time-of-day string produced by the calculator (the
local-time, sunrise and sunset strings) is formatted on a 24-hour clock
(`%H:%M`, hour 00-23) with an AM/PM suffix appended, the suffix being AM
exactly when the 24-hour value is below 12 — not on a 12-hour clock. -/
theorem C4_amended_24_hour_with_am_pm (c r s off : ℤ) :
    (∃ h m : ℕ, h < 24 ∧ m < 60 ∧
      (get_day_night_and_local_time c r s off).2.1 =
        twoDigit h ++ ":" ++ twoDigit m ++ " " ++ (if h < 12 then "AM" else "PM")) ∧
    (∃ h m : ℕ, h < 24 ∧ m < 60 ∧
      (get_day_night_and_local_time c r s off).2.2.2.1 =
        twoDigit h ++ ":" ++ twoDigit m ++ " " ++ (if h < 12 then "AM" else "PM")) ∧
    (∃ h m : ℕ, h < 24 ∧ m < 60 ∧
      (get_day_night_and_local_time c r s off).2.2.2.2 =
        twoDigit h ++ ":" ++ twoDigit m ++ " " ++ (if h < 12 then "AM" else "PM")) := by
  refine ⟨?_, ?_, ?_⟩ <;> exact strfHMp_shape _

/-- C5 (confirmed): country resolution — a 2-letter alphabetic token is
lowercased and returned without any table lookup; otherwise the title-cased
name is looked up in `COUNTRY_NAME_TO_ISO` (case-insensitively, checked
over the whole table in as-is/lower/upper spellings); an unmatched name
falls back to "us" together with the warning signal; and the three concrete
examples of the claim evaluate as specified. -/
theorem C5_country_resolution :
    (∀ s : String, s.length = 2 → pyIsAlpha s = true → resolveCountry s = (pyLower s, false)) ∧
    (∀ s v : String, ¬(s.length = 2 ∧ pyIsAlpha s = true) →
      lookupCountry (pyTitle s) = some v → resolveCountry s = (v, false)) ∧
    (∀ s : String, ¬(s.length = 2 ∧ pyIsAlpha s = true) →
      lookupCountry (pyTitle s) = none → resolveCountry s = ("us", true)) ∧
    (COUNTRY_NAME_TO_ISO.all (fun p =>
      resolveCountry p.1 == (p.2, false) &&
      resolveCountry (pyLower p.1) == (p.2, false) &&
      resolveCountry (pyUpper p.1) == (p.2, false)) = true) ∧
    (resolveCountry "south africa" = ("za", false) ∧
     resolveCountry "ZZ" = ("zz", false) ∧
     resolveCountry "Atlantis" = ("us", true)) := by
  refine ⟨?_, ?_, ?_, by decide, by decide⟩
  · intro s h2 ha
    unfold resolveCountry
    dsimp only
    rw [if_pos (show (s.length == 2 && pyIsAlpha s) = true from by simp [h2, ha])]
  · intro s v hn hv
    have hb : (s.length == 2 && pyIsAlpha s) = false := by
      by_cases h2 : s.length = 2
      · cases hA : pyIsAlpha s with
        | true => exact absurd ⟨h2, hA⟩ hn
        | false => simp [hA]
      · simp [h2]
    unfold resolveCountry
    dsimp only
    rw [if_neg (by simp [hb]), hv]
  · intro s hn hv
    have hb : (s.length == 2 && pyIsAlpha s) = false := by
      by_cases h2 : s.length = 2
      · cases hA : pyIsAlpha s with
        | true => exact absurd ⟨h2, hA⟩ hn
        | false => simp [hA]
      · simp [h2]
    unfold resolveCountry
    dsimp only
    rw [if_neg (by simp [hb]), hv]

/-- C5 (witness): the 2-letter rule of the theorem applied at "ZZ". -/
theorem C5_country_resolution_witness :
    resolveCountry "ZZ" = (pyLower "ZZ", false) :=
  C5_country_resolution.1 "ZZ" (by decide) (by decide)

end LocalInsights
namespace LocalInsights

/-- C6 (code bug): the hydration dichotomy and non-empty output hold only
where the engine returns at all.  At temp 0 °C the engine raises `KeyError`
(missing "🐾 Pet Pal" key) so no output mapping exists; for every in-range
temperature 10 ≤ t ≤ 28 (with a neutral description, calm wind, and no
pressure/visibility) the Hydration slot holds exactly the if-selected one of
the two fixed strings, the Dress Code band slot is populated with non-empty
text, and the output mapping is non-empty. -/
theorem C6_hydration_and_band_slots :
    (get_innovative_weather_suggestions ⟨0, "", 0, 50, true, none, none⟩ = Except.error ()) ∧
    (∀ t h : ℚ, 10 ≤ t → t ≤ 28 →
      slotOf (get_innovative_weather_suggestions ⟨t, "", 0, h, true, none, none⟩)
          Slot.stayHydrated =
        Except.ok (some (if t ≥ 25 ∨ h ≥ 70 then "Drink plenty of water throughout the day!"
          else "Keep a water bottle handy and sip regularly.")) ∧
      (∃ txt : String, txt ≠ "" ∧
        slotOf (get_innovative_weather_suggestions ⟨t, "", 0, h, true, none, none⟩)
            Slot.dressCode = Except.ok (some txt)) ∧
      (get_innovative_weather_suggestions ⟨t, "", 0, h, true, none, none⟩).map List.isEmpty =
        Except.ok false) := by
  constructor
  · decide
  · intro t h h10 h28
    rw [engine_plain_mid t h h10 h28]
    rcases lt_or_le t 15 with hb | hb
    · rw [tempStep_cool_band t initSuggestions (by linarith) hb]
      by_cases hc : t ≥ 25 ∨ h ≥ 70
      · rw [hydrationStep_drink t h _ hc, if_pos hc]
        exact ⟨by decide, ⟨"Light jacket or sweater. Smart to layer.", by decide, by decide⟩,
          by decide⟩
      · rw [hydrationStep_sip t h _ hc, if_neg hc]
        exact ⟨by decide, ⟨"Light jacket or sweater. Smart to layer.", by decide, by decide⟩,
          by decide⟩
    · rcases lt_or_le t 25 with hb2 | hb2
      · rw [tempStep_mild_band t initSuggestions hb hb2]
        by_cases hc : t ≥ 25 ∨ h ≥ 70
        · rw [hydrationStep_drink t h _ hc, if_pos hc]
          exact ⟨by decide,
            ⟨"Comfortable light clothing. Long-sleeves for evenings.", by decide, by decide⟩,
            by decide⟩
        · rw [hydrationStep_sip t h _ hc, if_neg hc]
          exact ⟨by decide,
            ⟨"Comfortable light clothing. Long-sleeves for evenings.", by decide, by decide⟩,
            by decide⟩
      · rw [tempStep_warm_band t initSuggestions hb2 (by linarith)]
        have hc : t ≥ 25 ∨ h ≥ 70 := Or.inl hb2
        rw [hydrationStep_drink t h _ hc, if_pos hc]
        exact ⟨by decide, ⟨"Shorts and t-shirt. Breathable fabrics.", by decide, by decide⟩,
          by decide⟩

/-- C6 (witness): the in-range part of the theorem applied at t = 20,
humidity = 80. -/
theorem C6_hydration_witness :
    slotOf (get_innovative_weather_suggestions ⟨20, "", 0, 80, true, none, none⟩)
        Slot.stayHydrated =
      Except.ok (some (if (20 : ℚ) ≥ 25 ∨ (80 : ℚ) ≥ 70
        then "Drink plenty of water throughout the day!"
        else "Keep a water bottle handy and sip regularly.")) :=
  (C6_hydration_and_band_slots.2 20 80 (by norm_num) (by norm_num)).1

/-- C7 (code bug): the band thresholds themselves are strict/half-open as
claimed — at temp = 5.0 the temperature step selects the cool-band dress
text (not the freezing one, whose health text stays empty), at temp = 30.0
it selects the hot-band dress text (not the warm one), and with pressure
exactly 1000 or 1020 neither pressure rule appends any text (while 999 and
1021 do fire) — but at temp = 5.0 and temp = 30.0 the engine then raises
`KeyError` in the pet-care block instead of yielding those texts. -/
theorem C7_threshold_boundaries :
    dgetOpt (tempStep 5 initSuggestions) Slot.dressCode =
      some "Light jacket or sweater. Smart to layer." ∧
    dgetOpt (tempStep 5 initSuggestions) Slot.healthTip = some "" ∧
    get_innovative_weather_suggestions ⟨5, "", 0, 50, true, some 1013, some 10000⟩ =
      Except.error () ∧
    dgetOpt (tempStep 30 initSuggestions) Slot.dressCode =
      some "Lightest clothing. Avoid dark colors." ∧
    get_innovative_weather_suggestions ⟨30, "", 0, 50, true, some 1013, some 10000⟩ =
      Except.error () ∧
    slotOf (get_innovative_weather_suggestions ⟨15, "", 0, 50, true, some 1000, some 10000⟩)
        Slot.healthTip = Except.ok (some "Sunscreen is vital if sunny. Drink water!") ∧
    slotOf (get_innovative_weather_suggestions ⟨15, "", 0, 50, true, some 1000, some 10000⟩)
        Slot.energySavvy = Except.ok none ∧
    slotOf (get_innovative_weather_suggestions ⟨15, "", 0, 50, true, some 1020, some 10000⟩)
        Slot.healthTip = Except.ok (some "Sunscreen is vital if sunny. Drink water!") ∧
    slotOf (get_innovative_weather_suggestions ⟨15, "", 0, 50, true, some 1020, some 10000⟩)
        Slot.energySavvy = Except.ok none ∧
    slotOf (get_innovative_weather_suggestions ⟨15, "", 0, 50, true, some 999, some 10000⟩)
        Slot.healthTip = Except.ok
          (some "Sunscreen is vital if sunny. Drink water! Low pressure can sometimes cause headaches for sensitive people.") ∧
    slotOf (get_innovative_weather_suggestions ⟨15, "", 0, 50, true, some 1021, some 10000⟩)
        Slot.energySavvy = Except.ok
          (some " Stable weather. Great for opening windows to air out rooms.") := by
  decide

/-- C8 (confirmed): the day/night status is "Daytime ☀️" exactly when
sunrise ≤ now ≤ sunset (equivalently, in local wall-clock terms with the
shared offset), inclusive at both endpoints: when now equals sunrise and
when now equals sunset the status is daytime. -/
theorem C8_day_night_inclusive :
    (∀ c r s off : ℤ,
      ((get_day_night_and_local_time c r s off).1 = "Daytime ☀️" ↔ r ≤ c ∧ c ≤ s)) ∧
    (∀ r s off : ℤ, r ≤ s →
      (get_day_night_and_local_time r r s off).1 = "Daytime ☀️" ∧
      (get_day_night_and_local_time s r s off).1 = "Daytime ☀️") := by
  have key : ∀ c r s off : ℤ,
      ((get_day_night_and_local_time c r s off).1 = "Daytime ☀️" ↔ r ≤ c ∧ c ≤ s) := by
    intro c r s off
    unfold get_day_night_and_local_time
    dsimp only
    by_cases hcond : r + off ≤ c + off ∧ c + off ≤ s + off
    · rw [if_pos hcond]
      exact ⟨fun _ => by omega, fun _ => rfl⟩
    · rw [if_neg hcond]
      constructor
      · intro hx
        exact absurd hx (by decide)
      · intro hx
        exact absurd (show r + off ≤ c + off ∧ c + off ≤ s + off by omega) hcond
  refine ⟨key, fun r s off hrs => ⟨?_, ?_⟩⟩
  · exact (key r r s off).2 ⟨le_refl r, hrs⟩
  · exact (key s r s off).2 ⟨hrs, le_refl s⟩

/-- C8 (witness): boundary instance of the theorem — now exactly at
sunrise is daytime. -/
theorem C8_day_night_witness :
    (get_day_night_and_local_time 0 0 100 3600).1 = "Daytime ☀️" :=
  (C8_day_night_inclusive.2 0 100 3600 (by norm_num)).1

/-- C9 (confirmed): with a configured key, every fetch failure path of
`get_news` (request exception, JSON decode failure) returns the empty list
together with the corresponding error signal, and a successful response
with no articles (absent field or empty list) also returns the empty list
— no failure propagates to the caller. -/
theorem C9_news_failures_degrade_to_empty (query country_name api_key : String)
    (h1 : api_key ≠ "") (h2 : api_key ≠ "YOUR_NEWS_API_KEY") :
    ((get_news query country_name api_key NewsResponse.raiseRequest).1 = [] ∧
      Signal.errorRequest ∈ (get_news query country_name api_key NewsResponse.raiseRequest).2) ∧
    ((get_news query country_name api_key NewsResponse.raiseJson).1 = [] ∧
      Signal.errorJsonDecode ∈ (get_news query country_name api_key NewsResponse.raiseJson).2) ∧
    (get_news query country_name api_key (NewsResponse.parsed none)).1 = [] ∧
    (get_news query country_name api_key (NewsResponse.parsed (some []))).1 = [] := by
  have hb : (api_key == "" || api_key == "YOUR_NEWS_API_KEY") = false := by
    simp [h1, h2]
  refine ⟨⟨?_, ?_⟩, ⟨?_, ?_⟩, ?_, ?_⟩ <;> simp [get_news, hb]

/-- C9 (witness): the theorem applied at a concrete input. -/
theorem C9_news_witness :
    (get_news "" "Atlantis" "k" NewsResponse.raiseRequest).1 = [] :=
  ((C9_news_failures_degrade_to_empty "" "Atlantis" "k" (by decide) (by decide)).1).1

/-- C10 (confirmed, implicit claim): `get_wind_direction` is total for every
degree input (integers included, negative and ≥ 360 as well): the rounded
index is reduced modulo 16, which always lands in range, so the function
returns one of the sixteen fixed direction strings and never raises
`IndexError`. -/
theorem C10_wind_direction_total (deg : ℚ) :
    ∃ s, get_wind_direction deg = Except.ok s ∧ s ∈ directions := by
  unfold get_wind_direction pyListIndex
  dsimp only
  have hL : ((directions.length : ℤ)) = 16 := by decide
  have h0 : 0 ≤ roundHalfEven (deg / ((360 : ℚ) / (directions.length : ℚ))) %
      (directions.length : ℤ) :=
    Int.emod_nonneg _ (by rw [hL]; norm_num)
  have h1 : roundHalfEven (deg / ((360 : ℚ) / (directions.length : ℚ))) %
      (directions.length : ℤ) < 16 := by
    rw [hL]
    exact Int.emod_lt_of_pos _ (by norm_num)
  rw [if_neg (not_lt.mpr h0), if_pos h0]
  have hlen : directions.length = 16 := rfl
  have hlt : (roundHalfEven (deg / ((360 : ℚ) / (directions.length : ℚ))) %
      (directions.length : ℤ)).toNat < directions.length := by
    omega
  rw [List.get?_eq_get hlt]
  exact ⟨directions.get ⟨_, hlt⟩, rfl, List.get_mem _ _ _⟩

end LocalInsights
